import Mathlib

/-!
Verification development for the trueblocks-scraper-go repository
(single source file src/main.go).

The development shallowly embeds:

* the configuration holder: the config struct and its init method
  (main.go lines 19-53), including the behavior of the external
  github.com/namsral/flag collaborator that init delegates to.  The flag
  set is created with flag.ExitOnError, so a parse failure calls
  os.Exit(2) inside Parse.  The command-line scan is the standard
  library parseOne loop (namsral/flag is a fork of the stdlib flag
  package); typed values go through strconv.ParseInt (base 0, 64 bit)
  and time.ParseDuration, both embedded below from their Go sources.
  After the command-line arguments, namsral/flag consults the process
  environment and an optional config file for every flag not already
  set; the merged external key/value source is modelled as an abstract
  lookup function (Lookup below), since its contents live outside the
  process and can differ between the startup parse and a reload parse.
* the control loop of run (main.go lines 61-106) as a step function
  over an event type mirroring the four select cases, producing a
  trace of observable actions (log lines, the shutdown sleep, loader
  invocations) and a loop outcome, plus a whole-process wrapper
  mirroring main (lines 108-122).
* the probe comparison block (lines 88-103) with net/http header
  access via textproto canonical MIME header keys.

Conventions: Go durations are Int nanoseconds; uint64/int64 arithmetic
is Nat/Int with the explicit overflow guards of the Go sources (the
guards fire before any wraparound, so Nat arithmetic agrees with the
guarded uint64 arithmetic); log.Printf lines are modelled by their
message text without the timestamp prefix of the log package, and the
startup log.Println line (which formats a time.Duration) is modelled
as a structured action carrying its arguments.
-/

namespace Scraper

/-- External configuration source consulted by namsral/flag after the
command-line arguments: environment variables and the optional config
file, merged, keyed by flag name.  none means the key is absent. -/
def Lookup : Type := String → Option String

/-- The empty external source: no environment variables, no config file. -/
def extNone : Lookup := fun _ => none

/-- Go strconv lower(c): c with the ASCII case bit set. -/
def lowerB (c : Char) : Char := Char.ofNat (c.toNat ||| 32)

/-- Error modes of strconv number parsing (ErrSyntax / ErrRange). -/
inductive NumErr
  | syntaxErr
  | rangeErr
deriving Repr, DecidableEq

/-- Digit value of a character as in strconv.ParseUint: decimal digits,
then case-insensitive letters a..z as 10..35. -/
def digitVal (c : Char) : Option Nat :=
  if c.isDigit then some (c.toNat - 48)
  else if 97 ≤ (lowerB c).toNat ∧ (lowerB c).toNat ≤ 122 then some ((lowerB c).toNat - 87)
  else none

/-- Digit-accumulation loop of strconv.ParseUint for bitSize 64 with a
base-0 prefix already stripped.  base0 is true (the call site uses base
0), so underscores are tolerated here and validated afterwards.  The
cutoff and max checks are the Go overflow guards; in Nat they fire at
exactly the same inputs. -/
def uintLoop (base : Nat) : Nat → Bool → List Char → Except NumErr (Nat × Bool)
  | n, us, [] => .ok (n, us)
  | n, us, c :: rest =>
    if c = '_' then uintLoop base n true rest
    else
      match digitVal c with
      | none => .error .syntaxErr
      | some d =>
        if d ≥ base then .error .syntaxErr
        else if n ≥ (2 ^ 64 - 1) / base + 1 then .error .rangeErr
        else
          let n1 := n * base + d
          if n1 > 2 ^ 64 - 1 then .error .rangeErr
          else uintLoop base n1 us rest

/-- State loop of strconv underscoreOK: saw is the category of the last
character seen: start, digit, underscore, or other.  hex widens the
digit set to a..f. -/
def uOKLoop (hex : Bool) : Char → List Char → Bool
  | saw, [] => saw != '_'
  | saw, c :: rest =>
    if c.isDigit ∨ (hex ∧ 97 ≤ (lowerB c).toNat ∧ (lowerB c).toNat ≤ 102) then
      uOKLoop hex '0' rest
    else if c = '_' then
      if saw ≠ '0' then false else uOKLoop hex '_' rest
    else if saw = '_' then false
    else uOKLoop hex '!' rest

/-- strconv underscoreOK: underscores are allowed only to separate
digits or to follow a base prefix. -/
def underscoreOK (s : List Char) : Bool :=
  let s1 :=
    match s with
    | c :: rest => if c = '-' ∨ c = '+' then rest else s
    | [] => s
  match s1 with
  | c0 :: c1 :: rest =>
    if c0 = '0' ∧ (lowerB c1 = 'b' ∨ lowerB c1 = 'o' ∨ lowerB c1 = 'x') then
      uOKLoop (lowerB c1 = 'x') '0' rest
    else uOKLoop false '^' s1
  | _ => uOKLoop false '^' s1

/-- strconv.ParseUint(s, 0, 64): base chosen by the 0b/0o/0x/0 prefix,
otherwise decimal; trailing digit scan with overflow guards; underscore
placement validated against the original string. -/
def goParseUintL (s : List Char) : Except NumErr Nat :=
  if s = [] then .error .syntaxErr
  else
    let bs : Nat × List Char :=
      match s with
      | '0' :: c1 :: c2 :: rest =>
        if lowerB c1 = 'b' then (2, c2 :: rest)
        else if lowerB c1 = 'o' then (8, c2 :: rest)
        else if lowerB c1 = 'x' then (16, c2 :: rest)
        else (8, c1 :: c2 :: rest)
      | '0' :: rest => (8, rest)
      | _ => (10, s)
    match uintLoop bs.fst 0 false bs.snd with
    | .error e => .error e
    | .ok (n, us) => if us ∧ ¬ underscoreOK s then .error .syntaxErr else .ok n

/-- strconv.ParseInt(s, 0, 64) as used by the flag package for the
status flag: strip a sign, parse unsigned, then check the int64 range
(range failures from the unsigned parse stay range failures). -/
def goParseIntL (s : List Char) : Except NumErr Int :=
  match s with
  | [] => .error .syntaxErr
  | c :: rest =>
    let ns : Bool × List Char :=
      if c = '+' then (false, rest)
      else if c = '-' then (true, rest)
      else (false, c :: rest)
    match goParseUintL ns.snd with
    | .error e => .error e
    | .ok un =>
      if ¬ ns.fst ∧ un ≥ 2 ^ 63 then .error .rangeErr
      else if ns.fst ∧ un > 2 ^ 63 then .error .rangeErr
      else .ok (if ns.fst then -(un : Int) else (un : Int))

/-- time leadingInt: leading decimal run with the 1<<63 overflow guards
of the Go source. -/
def leadingInt : Nat → List Char → Except Unit (Nat × List Char)
  | x, [] => .ok (x, [])
  | x, c :: rest =>
    if c.isDigit then
      if x > 2 ^ 63 / 10 then .error ()
      else
        let x1 := x * 10 + (c.toNat - 48)
        if x1 > 2 ^ 63 then .error ()
        else leadingInt x1 rest
    else .ok (x, c :: rest)

/-- time leadingFraction: fractional digit run; once the accumulator
would overflow, further digits are consumed but ignored.  scale is the
power of ten matching the accumulated digits (float64 in the Go source,
exact for the sizes the guards allow through small inputs). -/
def leadingFraction : Nat → Nat → Bool → List Char → Nat × Nat × List Char
  | x, scale, _, [] => (x, scale, [])
  | x, scale, ovf, c :: rest =>
    if c.isDigit then
      if ovf then leadingFraction x scale ovf rest
      else if x > (2 ^ 63 - 1) / 10 then leadingFraction x scale true rest
      else
        let y := x * 10 + (c.toNat - 48)
        if y > 2 ^ 63 then leadingFraction x scale true rest
        else leadingFraction y (scale * 10) ovf rest
    else (x, scale, c :: rest)

/-- time unitMap: nanoseconds per unit; us has the two micro-sign
spellings U+00B5 and U+03BC. -/
def unitNs (u : List Char) : Option Nat :=
  if u = ['n', 's'] then some 1
  else if u = ['u', 's'] ∨ u = [Char.ofNat 181, 's'] ∨ u = [Char.ofNat 956, 's'] then some 1000
  else if u = ['m', 's'] then some 1000000
  else if u = ['s'] then some 1000000000
  else if u = ['m'] then some 60000000000
  else if u = ['h'] then some 3600000000000
  else none

/-- Main accumulation loop of time.ParseDuration over the unsigned part
of the input: repeated (number, optional fraction, unit) groups with
the overflow guards of the Go source.  Fuel bounds the recursion; every
group consumes at least the nonempty unit, so fuel = length + 1 never
runs out on the initial call.  The fractional contribution is
float64(f) * (float64(unit)/scale) truncated in Go; it is computed here
as f * unit / scale in Nat, which agrees wherever the float64
computation is exact. -/
def durLoop : Nat → Nat → List Char → Except String Nat
  | _, d, [] => .ok d
  | 0, _, _ => .error "time: invalid duration"
  | fuel + 1, d, c0 :: srest =>
    if ¬ (c0 = '.' ∨ c0.isDigit) then .error "time: invalid duration"
    else
      match leadingInt 0 (c0 :: srest) with
      | .error _ => .error "time: invalid duration"
      | .ok (v, s1) =>
        let pre : Bool := s1.length != (c0 :: srest).length
        let fsr : Nat × Nat × List Char × Bool :=
          match s1 with
          | '.' :: t =>
            let fr := leadingFraction 0 1 false t
            (fr.fst, fr.snd.fst, fr.snd.snd, fr.snd.snd.length != t.length)
          | _ => (0, 1, s1, false)
        if ¬ pre ∧ ¬ fsr.snd.snd.snd then .error "time: invalid duration"
        else
          let u := fsr.snd.snd.fst.takeWhile (fun c => ¬ (c = '.' ∨ c.isDigit))
          let s3 := fsr.snd.snd.fst.dropWhile (fun c => ¬ (c = '.' ∨ c.isDigit))
          if u = [] then .error "time: missing unit in duration"
          else
            match unitNs u with
            | none => .error "time: unknown unit in duration"
            | some unit =>
              if v > 2 ^ 63 / unit then .error "time: invalid duration"
              else
                let v1 := v * unit
                let v2 := if fsr.fst > 0 then v1 + fsr.fst * unit / fsr.snd.fst else v1
                if fsr.fst > 0 ∧ v2 > 2 ^ 63 then .error "time: invalid duration"
                else
                  let d1 := d + v2
                  if d1 > 2 ^ 63 then .error "time: invalid duration"
                  else durLoop fuel d1 s3

/-- time.ParseDuration: optional sign, the special case 0, then the
group loop; the final value is negated for a leading minus and range
checked otherwise.  The result is Int nanoseconds. -/
def goParseDurationL (s : List Char) : Except String Int :=
  let ns : Bool × List Char :=
    match s with
    | c :: rest =>
      if c = '-' then (true, rest)
      else if c = '+' then (false, rest)
      else (false, c :: rest)
    | [] => (false, [])
  if ns.snd = ['0'] then .ok 0
  else if ns.snd = [] then .error "time: invalid duration"
  else
    match durLoop (ns.snd.length + 1) 0 ns.snd with
    | .error e => .error e
    | .ok d =>
      if ns.fst then .ok (-(d : Int))
      else if d > 2 ^ 63 - 1 then .error "time: invalid duration"
      else .ok (d : Int)

/-- The flag set registered by config.init (main.go lines 29-39): the
config-file path flag plus the six option flags, each holding its
default until set, with the list of names already set (flag actual). -/
structure FlagVals where
  config : String
  status : Int
  tick : Int
  server : String
  contentType : String
  userAgent : String
  url : String
  setNames : List String
deriving Repr, DecidableEq

/-- Registered defaults (main.go lines 30-38): status 200, tick 60s,
all strings empty. -/
def defaultFlagVals : FlagVals :=
  { config := "", status := 200, tick := 60000000000, server := "",
    contentType := "", userAgent := "", url := "", setNames := [] }

/-- Names registered on the flag set, in registration order. -/
def registeredNames : List String :=
  ["config", "status", "tick", "server", "content_type", "user_agent", "url"]

def isRegistered (name : List Char) : Bool :=
  (registeredNames.map String.data).contains name

/-- flag.Value.Set for the registered flags: strings always succeed,
status goes through strconv.ParseInt(s, 0, 64), tick through
time.ParseDuration; a parse failure is the flag invalid-value error. -/
def setFlag (fv : FlagVals) (name value : List Char) : Except String FlagVals :=
  if name = "config".data then
    .ok { fv with config := ⟨value⟩, setNames := "config" :: fv.setNames }
  else if name = "status".data then
    match goParseIntL value with
    | .ok n => .ok { fv with status := n, setNames := "status" :: fv.setNames }
    | .error _ => .error "invalid value for flag -status"
  else if name = "tick".data then
    match goParseDurationL value with
    | .ok d => .ok { fv with tick := d, setNames := "tick" :: fv.setNames }
    | .error _ => .error "invalid value for flag -tick"
  else if name = "server".data then
    .ok { fv with server := ⟨value⟩, setNames := "server" :: fv.setNames }
  else if name = "content_type".data then
    .ok { fv with contentType := ⟨value⟩, setNames := "content_type" :: fv.setNames }
  else if name = "user_agent".data then
    .ok { fv with userAgent := ⟨value⟩, setNames := "user_agent" :: fv.setNames }
  else if name = "url".data then
    .ok { fv with url := ⟨value⟩, setNames := "url" :: fv.setNames }
  else .error "flag provided but not defined"

/-- Split a flag body at the first equals sign strictly after the first
character, as the flag parseOne loop does. -/
def findEqSplit : List Char → Option (List Char × List Char)
  | [] => none
  | c :: rest =>
    if c = '=' then some ([], rest)
    else
      match findEqSplit rest with
      | some ab => some (c :: ab.fst, ab.snd)
      | none => none

/-- The flag package parseOne loop over the argument list: stop at the
first non-flag argument or bare double dash; reject bad flag syntax,
unknown flags (help included, which under ExitOnError also exits), and
missing values; take an inline =value or consume the next argument as
the value; Set the value and continue. -/
def parseArgsGo (fv : FlagVals) : List (List Char) → Except String FlagVals
  | [] => .ok fv
  | s :: rest =>
    match s with
    | c0 :: c1 :: srest =>
      if c0 ≠ '-' then .ok fv
      else
        let nameRaw? : Option (List Char) :=
          if c1 = '-' then (if srest = [] then none else some srest)
          else some (c1 :: srest)
        match nameRaw? with
        | none => .ok fv
        | some nameRaw =>
          match nameRaw with
          | [] => .error "bad flag syntax"
          | n0 :: ntail =>
            if n0 = '-' ∨ n0 = '=' then .error "bad flag syntax"
            else
              let nv : List Char × Option (List Char) :=
                match findEqSplit ntail with
                | some ab => (n0 :: ab.fst, some ab.snd)
                | none => (n0 :: ntail, none)
              if ¬ isRegistered nv.fst then
                .error (if nv.fst = ['h'] ∨ nv.fst = "help".data then
                  "help requested" else "flag provided but not defined")
              else
                match nv.snd with
                | some v =>
                  match setFlag fv nv.fst v with
                  | .error e => .error e
                  | .ok fv1 => parseArgsGo fv1 rest
                | none =>
                  match rest with
                  | [] => .error "flag needs an argument"
                  | v :: rest2 =>
                    match setFlag fv nv.fst v with
                    | .error e => .error e
                    | .ok fv1 => parseArgsGo fv1 rest2
    | _ => .ok fv

/-- One step of the namsral/flag post-scan: a flag not set on the
command line takes its value from the external source when present,
through the same Set (so a malformed external value is a parse error). -/
def applyExt1 (ext : Lookup) (fv : FlagVals) (name : String) : Except String FlagVals :=
  if fv.setNames.contains name then .ok fv
  else
    match ext name with
    | none => .ok fv
    | some v => setFlag fv name.data v.data

/-- namsral/flag environment and config-file pass over every registered
flag, in registration order. -/
def applyExternal (ext : Lookup) (fv : FlagVals) : Except String FlagVals := do
  let fv ← applyExt1 ext fv "config"
  let fv ← applyExt1 ext fv "status"
  let fv ← applyExt1 ext fv "tick"
  let fv ← applyExt1 ext fv "server"
  let fv ← applyExt1 ext fv "content_type"
  let fv ← applyExt1 ext fv "user_agent"
  let fv ← applyExt1 ext fv "url"
  return fv

/-- flags.Parse(args[1:]) for the registered set: command-line scan,
then the external pass. -/
def parseFlags (argsTail : List String) (ext : Lookup) : Except String FlagVals :=
  match parseArgsGo defaultFlagVals (argsTail.map String.data) with
  | .error e => .error e
  | .ok fv => applyExternal ext fv

/-- The config struct (main.go lines 19-26).  tick is Int nanoseconds. -/
structure Config where
  contentType : String
  server : String
  statusCode : Int
  tick : Int
  url : String
  userAgent : String
deriving Repr, DecidableEq

/-- Go zero value of the config struct, as allocated in main (line 112). -/
def zeroConfig : Config :=
  { contentType := "", server := "", statusCode := 0, tick := 0, url := "", userAgent := "" }

/-- Outcome of config.init (main.go lines 28-53).  Because the flag set
uses flag.ExitOnError, a parse failure never returns: Parse calls
os.Exit(2), so init can end in a process exit; exit carries the config
state at that moment, which is the receiver unchanged since the field
assignments (lines 45-50) only run after a successful Parse.  An empty
argument list makes args[0] panic (modelled separately; the Go runtime
exits with status 2 on panic). -/
inductive InitOut
  | ok (c : Config)
  | exit (code : Nat) (cAtExit : Config)
  | panicked
deriving Repr, DecidableEq

/-- config.init(args): parse args[1:] with the registered flag set and
the current external source, then assign all six fields. -/
def configInit (c : Config) (args : List String) (ext : Lookup) : InitOut :=
  match args with
  | [] => .panicked
  | _ :: tail =>
    match parseFlags tail ext with
    | .error _ => .exit 2 c
    | .ok fv =>
      .ok { contentType := fv.contentType, server := fv.server, statusCode := fv.status,
            tick := fv.tick, url := fv.url, userAgent := fv.userAgent }

/-- textproto validHeaderFieldByte: ASCII letters, digits, and the
token punctuation set. -/
def validHeaderFieldChar (c : Char) : Bool :=
  let n := c.toNat
  decide ((48 ≤ n ∧ n ≤ 57) ∨ (65 ≤ n ∧ n ≤ 90) ∨ (97 ≤ n ∧ n ≤ 122) ∨
    n ∈ [33, 35, 36, 37, 38, 39, 42, 43, 45, 46, 94, 95, 96, 124, 126])

/-- textproto canonical casing pass: uppercase the first letter and any
letter after a dash, lowercase the rest. -/
def canonChars : Bool → List Char → List Char
  | _, [] => []
  | upper, c :: rest =>
    let c' :=
      if upper ∧ 97 ≤ c.toNat ∧ c.toNat ≤ 122 then Char.ofNat (c.toNat - 32)
      else if ¬ upper ∧ 65 ≤ c.toNat ∧ c.toNat ≤ 90 then Char.ofNat (c.toNat + 32)
      else c
    c' :: canonChars (c' == '-') rest

/-- textproto.CanonicalMIMEHeaderKey: keys with invalid bytes are
returned unchanged. -/
def canonicalMIMEHeaderKey (s : String) : String :=
  if s.data.all validHeaderFieldChar then ⟨canonChars true s.data⟩ else s

/-- http.Header.Get: canonicalize the key, return the first value for
it, or the empty string when the header is absent.  Headers are stored
under canonical keys, as the net/http response reader produces them. -/
def headerGet (h : List (String × String)) (key : String) : String :=
  match h.find? (fun p => p.fst == canonicalMIMEHeaderKey key) with
  | some p => p.snd
  | none => ""

/-- Probe result of a successful http.Get: status code and response
headers (main.go line 84 and the uses on lines 89-103). -/
structure Resp where
  statusCode : Int
  header : List (String × String)
deriving Repr, DecidableEq

/-- Message of log.Printf on line 90. -/
def statusLine (code : Int) : String :=
  "Status code mismatch, got: " ++ (toString code ++ "\n")

/-- Message of log.Printf on line 94. -/
def serverLine (s : String) : String :=
  "Server header mismatch, got: " ++ (s ++ "\n")

/-- Message of log.Printf on line 98. -/
def contentTypeLine (s : String) : String :=
  "Content-Type header mismatch, got: " ++ (s ++ "\n")

/-- Message of log.Printf on line 102. -/
def userAgentLine (s : String) : String :=
  "User-Agent header mismatch, got: " ++ (s ++ "\n")

/-- The four comparison blocks of the tick case (main.go lines 89-103),
in source order: each produces its line exactly when its observed value
differs from the configured expectation. -/
def checkResp (c : Config) (r : Resp) : List String :=
  (if r.statusCode ≠ c.statusCode then [statusLine r.statusCode] else []) ++
    ((if headerGet r.header "server" ≠ c.server then
        [serverLine (headerGet r.header "server")] else []) ++
      ((if headerGet r.header "content-type" ≠ c.contentType then
          [contentTypeLine (headerGet r.header "content-type")] else []) ++
        (if headerGet r.header "user-agent" ≠ c.userAgent then
          [userAgentLine (headerGet r.header "user-agent")] else [])))

/-- The four select cases of the loop (main.go lines 70-104): the two
terminate signals, the reload signal, context cancellation, and a tick
carrying the outcome of http.Get (an error for a transport failure). -/
inductive Ev
  | sigint
  | sigterm
  | sighup
  | ctxDone
  | tick (result : Except String Resp)
deriving Repr

/-- Observable actions of the process: log lines (message text), the
structured startup line of log.Println on line 64, the graceful
shutdown sleep, invocations of config.init, and writes to stderr. -/
inductive Act
  | log (s : String)
  | logStarting (tickNs : Int) (pid : Int)
  | sleepNs (ns : Int)
  | loadCall
  | stderr (s : String)
deriving Repr, DecidableEq

/-- Outcome of handling one ready event: keep looping with a config,
return from run (the error return of the select body), or a direct
os.Exit with a code. -/
inductive LoopOut
  | more (c : Config)
  | ret (err : Option String)
  | exit (code : Nat)
deriving Repr, DecidableEq

/-- Trace of the SIGINT/SIGTERM case (lines 74-76): the exit
announcement, then cancel() (lines 55-59), then os.Exit(1). -/
def sigTrace : List Act :=
  [.log "Got SIGINT/SIGTERM, exiting.", .log "I am dying, please wait...",
   .sleepNs 2000000000, .log "I am dead."]

/-- Message of log.Print(os.Getpid(), ": ") on line 88: fmt.Sprint adds
no space between an int operand and an adjacent string operand. -/
def pidLine (pid : Int) : String := toString pid ++ ": "

/-- One iteration of the select loop (lines 69-105) on a ready event.
args is os.Args as passed to init on line 79, ext the external flag
source at this moment (the config file can have changed since startup),
pid the value of os.Getpid(). -/
def stepEv (args : List String) (ext : Lookup) (pid : Int) (c : Config) :
    Ev → List Act × LoopOut
  | .sigint => (sigTrace, .exit 1)
  | .sigterm => (sigTrace, .exit 1)
  | .sighup =>
    match configInit c args ext with
    | .ok c1 => ([.log "Got SIGHUP, reloading.", .loadCall], .more c1)
    | .exit k _ => ([.log "Got SIGHUP, reloading.", .loadCall], .exit k)
    | .panicked => ([.log "Got SIGHUP, reloading.", .loadCall], .exit 2)
  | .ctxDone => ([], .ret none)
  | .tick (.error e) => ([], .ret (some e))
  | .tick (.ok r) => (.log (pidLine pid) :: (checkResp c r).map .log, .more c)

/-- Run the loop over a queue of ready events until run returns, the
process exits, or the queue is exhausted (the loop is then still alive,
waiting in the select). -/
def runLoop (args : List String) (ext : Lookup) (pid : Int) :
    Config → List Ev → List Act × LoopOut
  | c, [] => ([], .more c)
  | c, e :: evs =>
    match stepEv args ext pid c e with
    | (t, .more c1) =>
      let r := runLoop args ext pid c1 evs
      (t ++ r.fst, r.snd)
    | (t, .ret err) => (t, .ret err)
    | (t, .exit k) => (t, .exit k)

/-- Whole-process outcome of main (lines 108-122). -/
inductive ProgOut
  | running (c : Config)
  | exited (code : Nat)
deriving Repr, DecidableEq

/-- The process: run starts with init on the zero config (line 62,
return value discarded; under ExitOnError a failed parse has already
exited with code 2), logs the startup line, then loops; a nil return
from run lets main return (process exit 0), an error return is printed
to stderr and main calls os.Exit(1) (lines 118-121). -/
def program (args : List String) (ext : Lookup) (pid : Int) (evs : List Ev) :
    List Act × ProgOut :=
  match configInit zeroConfig args ext with
  | .exit k _ => ([.loadCall], .exited k)
  | .panicked => ([.loadCall], .exited 2)
  | .ok c =>
    let start : List Act := [.loadCall, .logStarting c.tick pid]
    match runLoop args ext pid c evs with
    | (t, .more c1) => (start ++ t, .running c1)
    | (t, .ret none) => (start ++ t, .exited 0)
    | (t, .ret (some e)) => (start ++ (t ++ [.stderr (e ++ "\n")]), .exited 1)
    | (t, .exit k) => (start ++ t, .exited k)

/-- Number of loader invocations recorded in a trace. -/
def countLoadCalls (t : List Act) : Nat :=
  t.countP (fun a => a == Act.loadCall)

/-- Whether a flag parse ended in an error. -/
def isErr : Except String FlagVals → Bool
  | .error _ => true
  | .ok _ => false

/-- The six configuration options of main.go lines 33-38. -/
inductive OptName
  | status
  | tick
  | server
  | contentType
  | userAgent
  | url
deriving Repr, DecidableEq

/-- Flag name of an option as registered on the flag set. -/
def optKey : OptName → String
  | .status => "status"
  | .tick => "tick"
  | .server => "server"
  | .contentType => "content_type"
  | .userAgent => "user_agent"
  | .url => "url"

/-- One option occurrence on a command line: which option, the supplied
value, and the spelling (equals form -name=value versus a separate value
argument, single versus double leading dash).  A list of these describes
an arbitrary valid argument list supplying options: any subset of the
options, in any order, with repetitions, in any of the four spellings
the flag grammar accepts. -/
structure OptArg where
  name : OptName
  value : String
  useEquals : Bool
  doubleDash : Bool
deriving Repr, DecidableEq

/-- Command-line tokens of one option occurrence. -/
def OptArg.render (o : OptArg) : List String :=
  let dash := if o.doubleDash then "--" else "-"
  if o.useEquals then [dash ++ optKey o.name ++ "=" ++ o.value]
  else [dash ++ optKey o.name, o.value]

/-- Command-line tokens of a whole option script. -/
def renderArgs : List OptArg → List String
  | [] => []
  | o :: rest => o.render ++ renderArgs rest

/-- The documented defaults as a snapshot: status 200, tick 60s, empty
strings for server, content_type, user_agent and url. -/
def defaultConfig : Config :=
  { contentType := "", server := "", statusCode := 200, tick := 60000000000,
    url := "", userAgent := "" }

/-- The snapshot a flag state would produce: the six assignments of
main.go lines 45-50. -/
def fvConfig (fv : FlagVals) : Config :=
  { contentType := fv.contentType, server := fv.server, statusCode := fv.status,
    tick := fv.tick, url := fv.url, userAgent := fv.userAgent }

/-- The snapshot field an option controls (status and tick as numbers,
the rest as strings). -/
def OptName.get : OptName → Config → String ⊕ Int
  | .status, c => .inr c.statusCode
  | .tick, c => .inr c.tick
  | .server, c => .inl c.server
  | .contentType, c => .inl c.contentType
  | .userAgent, c => .inl c.userAgent
  | .url, c => .inl c.url

/-- Specification-side meaning of one supplied option, following the
words of the spec: the snapshot field of the option is set to the
supplied value, parsed for the typed options, and a value that cannot
be parsed fails. -/
def applyOptSpec (c : Config) (o : OptArg) : Except String Config :=
  match o.name with
  | .status =>
    match goParseIntL o.value.data with
    | .ok n => .ok { c with statusCode := n }
    | .error _ => .error "invalid value for flag -status"
  | .tick =>
    match goParseDurationL o.value.data with
    | .ok d => .ok { c with tick := d }
    | .error _ => .error "invalid value for flag -tick"
  | .server => .ok { c with server := o.value }
  | .contentType => .ok { c with contentType := o.value }
  | .userAgent => .ok { c with userAgent := o.value }
  | .url => .ok { c with url := o.value }

/-- Specification-side meaning of a whole option script: fields equal
the supplied values, later occurrences overriding earlier ones, fields
of options never supplied untouched. -/
def applyOptsSpec : Config → List OptArg → Except String Config
  | c, [] => .ok c
  | c, o :: rest =>
    match applyOptSpec c o with
    | .ok c1 => applyOptsSpec c1 rest
    | .error e => .error e

/-!
Helper lemmas: disequality of the four mismatch message shapes (their
prefixes differ at the second character), and single-step reductions of
the argument scan for a concrete flag name followed by a symbolic
value.
-/

theorem strDataApp (s t : String) : (s ++ t).data = s.data ++ t.data := by
  cases s; cases t; rfl

theorem lineNe (p q : String) (h : p.data[1]? ≠ q.data[1]?)
    (hp : 1 < p.data.length) (hq : 1 < q.data.length) (x y : String) :
    p ++ x ≠ q ++ y := by
  intro he
  apply h
  have hd := congrArg String.data he
  rw [strDataApp, strDataApp] at hd
  have h2 := congrArg (fun l => l[1]?) hd
  simp only at h2
  rw [List.getElem?_append_left hp, List.getElem?_append_left hq] at h2
  exact h2

theorem statusLine_ne_serverLine (a : Int) (b : String) : statusLine a ≠ serverLine b :=
  lineNe _ _ (by decide) (by decide) (by decide) _ _

theorem statusLine_ne_ctLine (a : Int) (b : String) : statusLine a ≠ contentTypeLine b :=
  lineNe _ _ (by decide) (by decide) (by decide) _ _

theorem statusLine_ne_uaLine (a : Int) (b : String) : statusLine a ≠ userAgentLine b :=
  lineNe _ _ (by decide) (by decide) (by decide) _ _

theorem serverLine_ne_statusLine (a : String) (b : Int) : serverLine a ≠ statusLine b :=
  lineNe _ _ (by decide) (by decide) (by decide) _ _

theorem serverLine_ne_ctLine (a b : String) : serverLine a ≠ contentTypeLine b :=
  lineNe _ _ (by decide) (by decide) (by decide) _ _

theorem serverLine_ne_uaLine (a b : String) : serverLine a ≠ userAgentLine b :=
  lineNe _ _ (by decide) (by decide) (by decide) _ _

theorem ctLine_ne_statusLine (a : String) (b : Int) : contentTypeLine a ≠ statusLine b :=
  lineNe _ _ (by decide) (by decide) (by decide) _ _

theorem ctLine_ne_serverLine (a b : String) : contentTypeLine a ≠ serverLine b :=
  lineNe _ _ (by decide) (by decide) (by decide) _ _

theorem ctLine_ne_uaLine (a b : String) : contentTypeLine a ≠ userAgentLine b :=
  lineNe _ _ (by decide) (by decide) (by decide) _ _

theorem uaLine_ne_statusLine (a : String) (b : Int) : userAgentLine a ≠ statusLine b :=
  lineNe _ _ (by decide) (by decide) (by decide) _ _

theorem uaLine_ne_serverLine (a b : String) : userAgentLine a ≠ serverLine b :=
  lineNe _ _ (by decide) (by decide) (by decide) _ _

theorem uaLine_ne_ctLine (a b : String) : userAgentLine a ≠ contentTypeLine b :=
  lineNe _ _ (by decide) (by decide) (by decide) _ _

theorem parseArgsGo_status_step (fv : FlagVals) (v : List Char) (rest : List (List Char)) :
    parseArgsGo fv ("-status".data :: v :: rest) =
      match setFlag fv "status".data v with
      | .error e => Except.error e
      | .ok fv1 => parseArgsGo fv1 rest := rfl

theorem parseArgsGo_tick_step (fv : FlagVals) (v : List Char) (rest : List (List Char)) :
    parseArgsGo fv ("-tick".data :: v :: rest) =
      match setFlag fv "tick".data v with
      | .error e => Except.error e
      | .ok fv1 => parseArgsGo fv1 rest := rfl

theorem parseArgsGo_server_step (fv : FlagVals) (v : List Char) (rest : List (List Char)) :
    parseArgsGo fv ("-server".data :: v :: rest) =
      parseArgsGo { fv with server := ⟨v⟩, setNames := "server" :: fv.setNames } rest := rfl

theorem parseArgsGo_ct_step (fv : FlagVals) (v : List Char) (rest : List (List Char)) :
    parseArgsGo fv ("-content_type".data :: v :: rest) =
      parseArgsGo { fv with contentType := ⟨v⟩, setNames := "content_type" :: fv.setNames }
        rest := rfl

theorem parseArgsGo_ua_step (fv : FlagVals) (v : List Char) (rest : List (List Char)) :
    parseArgsGo fv ("-user_agent".data :: v :: rest) =
      parseArgsGo { fv with userAgent := ⟨v⟩, setNames := "user_agent" :: fv.setNames }
        rest := rfl

theorem parseArgsGo_url_step (fv : FlagVals) (v : List Char) (rest : List (List Char)) :
    parseArgsGo fv ("-url".data :: v :: rest) =
      parseArgsGo { fv with url := ⟨v⟩, setNames := "url" :: fv.setNames } rest := rfl

theorem setFlag_status (fv : FlagVals) (v : List Char) :
    setFlag fv "status".data v =
      match goParseIntL v with
      | .ok n => .ok { fv with status := n, setNames := "status" :: fv.setNames }
      | .error _ => .error "invalid value for flag -status" := by
  simp only [setFlag]
  rw [if_neg (by decide), if_pos (by decide)]

theorem setFlag_tick (fv : FlagVals) (v : List Char) :
    setFlag fv "tick".data v =
      match goParseDurationL v with
      | .ok d => .ok { fv with tick := d, setNames := "tick" :: fv.setNames }
      | .error _ => .error "invalid value for flag -tick" := by
  simp only [setFlag]
  rw [if_neg (by decide), if_neg (by decide), if_pos (by decide)]

theorem applyExt1_extNone (fv : FlagVals) (n : String) : applyExt1 extNone fv n = .ok fv := by
  unfold applyExt1
  split
  · rfl
  · rfl

theorem extNone_bind (fv : FlagVals) (n : String) (g : FlagVals → Except String FlagVals) :
    (applyExt1 extNone fv n >>= g) = g fv := by
  rw [applyExt1_extNone]
  rfl

/-- With no environment and no config file the namsral post-scan leaves
every flag value unchanged. -/
theorem applyExternal_extNone (fv : FlagVals) : applyExternal extNone fv = .ok fv := by
  simp only [applyExternal, extNone_bind]
  rfl

theorem renderStep_status (fv : FlagVals) (v : String) (ue dd : Bool)
    (rest : List (List Char)) :
    parseArgsGo fv ((OptArg.render ⟨.status, v, ue, dd⟩).map String.data ++ rest) =
      match setFlag fv "status".data v.data with
      | .error e => Except.error e
      | .ok fv1 => parseArgsGo fv1 rest := by
  cases ue <;> cases dd <;> rfl

theorem renderStep_tick (fv : FlagVals) (v : String) (ue dd : Bool)
    (rest : List (List Char)) :
    parseArgsGo fv ((OptArg.render ⟨.tick, v, ue, dd⟩).map String.data ++ rest) =
      match setFlag fv "tick".data v.data with
      | .error e => Except.error e
      | .ok fv1 => parseArgsGo fv1 rest := by
  cases ue <;> cases dd <;> rfl

theorem renderStep_server (fv : FlagVals) (v : String) (ue dd : Bool)
    (rest : List (List Char)) :
    parseArgsGo fv ((OptArg.render ⟨.server, v, ue, dd⟩).map String.data ++ rest) =
      parseArgsGo { fv with server := v, setNames := "server" :: fv.setNames } rest := by
  cases ue <;> cases dd <;> rfl

theorem renderStep_ct (fv : FlagVals) (v : String) (ue dd : Bool)
    (rest : List (List Char)) :
    parseArgsGo fv ((OptArg.render ⟨.contentType, v, ue, dd⟩).map String.data ++ rest) =
      parseArgsGo { fv with contentType := v, setNames := "content_type" :: fv.setNames }
        rest := by
  cases ue <;> cases dd <;> rfl

theorem renderStep_ua (fv : FlagVals) (v : String) (ue dd : Bool)
    (rest : List (List Char)) :
    parseArgsGo fv ((OptArg.render ⟨.userAgent, v, ue, dd⟩).map String.data ++ rest) =
      parseArgsGo { fv with userAgent := v, setNames := "user_agent" :: fv.setNames }
        rest := by
  cases ue <;> cases dd <;> rfl

theorem renderStep_url (fv : FlagVals) (v : String) (ue dd : Bool)
    (rest : List (List Char)) :
    parseArgsGo fv ((OptArg.render ⟨.url, v, ue, dd⟩).map String.data ++ rest) =
      parseArgsGo { fv with url := v, setNames := "url" :: fv.setNames } rest := by
  cases ue <;> cases dd <;> rfl

/-- The command-line scan refines the specification fold: whenever the
specification meaning of an option script succeeds from the snapshot a
flag state denotes, the scan of the rendered argument list succeeds
from that flag state and denotes the same resulting snapshot.  The
script is arbitrary: any subset of the options, any order, repetitions,
and any of the four spellings per occurrence. -/
theorem parse_refines_applyOpts :
    ∀ (opts : List OptArg) (fv : FlagVals) (c' : Config),
      applyOptsSpec (fvConfig fv) opts = .ok c' →
      ∃ fv', parseArgsGo fv ((renderArgs opts).map String.data) = .ok fv' ∧
        fvConfig fv' = c' := by
  intro opts
  induction opts with
  | nil =>
    intro fv c' h
    refine ⟨fv, rfl, ?_⟩
    have h2 : (Except.ok (fvConfig fv) : Except String Config) = .ok c' := h
    exact Except.ok.inj h2
  | cons o rest ih =>
    intro fv c' h
    obtain ⟨n, v, ue, dd⟩ := o
    have hmap : (renderArgs (⟨n, v, ue, dd⟩ :: rest)).map String.data =
        (OptArg.render ⟨n, v, ue, dd⟩).map String.data ++
          (renderArgs rest).map String.data := by
      simp [renderArgs]
    rw [hmap]
    cases n with
    | status =>
      rw [renderStep_status, setFlag_status]
      cases hv : goParseIntL v.data with
      | error e => simp [applyOptsSpec, applyOptSpec, hv] at h
      | ok m =>
        simp only [applyOptsSpec, applyOptSpec, hv] at h
        exact ih { fv with status := m, setNames := "status" :: fv.setNames } c' h
    | tick =>
      rw [renderStep_tick, setFlag_tick]
      cases hv : goParseDurationL v.data with
      | error e => simp [applyOptsSpec, applyOptSpec, hv] at h
      | ok m =>
        simp only [applyOptsSpec, applyOptSpec, hv] at h
        exact ih { fv with tick := m, setNames := "tick" :: fv.setNames } c' h
    | server =>
      rw [renderStep_server]
      exact ih { fv with server := v, setNames := "server" :: fv.setNames } c' h
    | contentType =>
      rw [renderStep_ct]
      exact ih { fv with contentType := v, setNames := "content_type" :: fv.setNames } c' h
    | userAgent =>
      rw [renderStep_ua]
      exact ih { fv with userAgent := v, setNames := "user_agent" :: fv.setNames } c' h
    | url =>
      rw [renderStep_url]
      exact ih { fv with url := v, setNames := "url" :: fv.setNames } c' h

/-- One applied option only changes its own field. -/
theorem applyOptSpec_preserves (c0 c1 : Config) (o : OptArg) (n : OptName)
    (ha : applyOptSpec c0 o = .ok c1) (hne : o.name ≠ n) : n.get c1 = n.get c0 := by
  obtain ⟨nm, v, ue, dd⟩ := o
  cases nm <;> simp only [applyOptSpec] at ha
  case status =>
    cases hv : goParseIntL v.data with
    | error e => simp [hv] at ha
    | ok m =>
      simp only [hv] at ha
      injection ha with ha
      subst ha
      cases n <;> first | exact absurd rfl hne | rfl
  case tick =>
    cases hv : goParseDurationL v.data with
    | error e => simp [hv] at ha
    | ok m =>
      simp only [hv] at ha
      injection ha with ha
      subst ha
      cases n <;> first | exact absurd rfl hne | rfl
  case server =>
    injection ha with ha
    subst ha
    cases n <;> first | exact absurd rfl hne | rfl
  case contentType =>
    injection ha with ha
    subst ha
    cases n <;> first | exact absurd rfl hne | rfl
  case userAgent =>
    injection ha with ha
    subst ha
    cases n <;> first | exact absurd rfl hne | rfl
  case url =>
    injection ha with ha
    subst ha
    cases n <;> first | exact absurd rfl hne | rfl

/-- An option never supplied by a script leaves its field untouched. -/
theorem applyOptsSpec_preserves :
    ∀ (opts : List OptArg) (c0 c' : Config) (n : OptName),
      applyOptsSpec c0 opts = .ok c' → (∀ o ∈ opts, o.name ≠ n) →
      n.get c' = n.get c0 := by
  intro opts
  induction opts with
  | nil =>
    intro c0 c' n h _
    have h2 : (Except.ok c0 : Except String Config) = .ok c' := h
    rw [Except.ok.inj h2]
  | cons o rest ih =>
    intro c0 c' n h hno
    cases ha : applyOptSpec c0 o with
    | error e => simp [applyOptsSpec, ha] at h
    | ok c1 =>
      simp only [applyOptsSpec, ha] at h
      have h1 := ih c1 c' n h (fun o' ho' => hno o' (List.mem_cons_of_mem _ ho'))
      have h2 := applyOptSpec_preserves c0 c1 o n ha (hno o (List.mem_cons_self _ _))
      rw [h1, h2]

/-- C1, counterexample: the claim says a hang-up signal never terminates
the loop or the process even when the load invocation fails.  Here is a
RUNNING state reached by a successful startup (first conjunct), from
which a SIGHUP while the external flag source holds a malformed tick
value makes the loop step end in a process exit with code 2 (ExitOnError
inside flags.Parse on line 79), and the subsequently queued tick event
is never processed. -/
theorem c1_reload_failure_exits_process :
    configInit zeroConfig ["scraper"] extNone =
      .ok ⟨"", "", 200, 60000000000, "", ""⟩ ∧
    stepEv ["scraper"] (fun n => if n = "tick" then some "abc" else none) 7
        ⟨"", "", 200, 60000000000, "", ""⟩ .sighup =
      ([Act.log "Got SIGHUP, reloading.", Act.loadCall], .exit 2) ∧
    runLoop ["scraper"] (fun n => if n = "tick" then some "abc" else none) 7
        ⟨"", "", 200, 60000000000, "", ""⟩ [.sighup, .tick (.ok ⟨200, []⟩)] =
      ([Act.log "Got SIGHUP, reloading.", Act.loadCall], .exit 2) :=
  ⟨rfl, rfl, rfl⟩

/-- C1, amended: a hang-up signal triggers exactly one re-invocation of
the configuration loader; when that load succeeds the loop does not
terminate and keeps processing ticks with the new snapshot, but when
the load fails the ExitOnError flag set terminates the process (exit
code 2 from inside flags.Parse). -/
theorem c1_sighup_single_reload_alive_or_exit :
    ∀ (args : List String) (ext : Lookup) (pid : Int) (c c1 : Config),
      (configInit c args ext = .ok c1 →
        stepEv args ext pid c .sighup =
          ([Act.log "Got SIGHUP, reloading.", Act.loadCall], .more c1) ∧
        countLoadCalls (stepEv args ext pid c .sighup).fst = 1 ∧
        (∀ r : Resp, stepEv args ext pid c1 (.tick (.ok r)) =
          (Act.log (pidLine pid) :: (checkResp c1 r).map Act.log, .more c1))) ∧
      (∀ (k : Nat) (c2 : Config), configInit c args ext = .exit k c2 →
        stepEv args ext pid c .sighup =
          ([Act.log "Got SIGHUP, reloading.", Act.loadCall], .exit k)) := by
  intro args ext pid c c1
  constructor
  · intro h
    have hs : stepEv args ext pid c .sighup =
        ([Act.log "Got SIGHUP, reloading.", Act.loadCall], .more c1) := by
      simp [stepEv, h]
    exact ⟨hs, by rw [hs]; rfl, fun r => rfl⟩
  · intro k c2 h
    simp [stepEv, h]

/-- C1, witness: both branches of the amended theorem at concrete
inputs: a reload with an empty external source succeeds and keeps the
loop alive; a reload with a malformed external tick exits with code 2. -/
theorem c1_sighup_single_reload_alive_or_exit_inst :
    stepEv ["scraper"] extNone 7 ⟨"", "", 200, 60000000000, "", ""⟩ .sighup =
      ([Act.log "Got SIGHUP, reloading.", Act.loadCall],
        .more ⟨"", "", 200, 60000000000, "", ""⟩) ∧
    stepEv ["scraper"] (fun n => if n = "tick" then some "1h" else none) 7
        ⟨"", "", 200, 60000000000, "", ""⟩ .sighup =
      ([Act.log "Got SIGHUP, reloading.", Act.loadCall],
        .more ⟨"", "", 200, 3600000000000, "", ""⟩) ∧
    stepEv ["scraper"] (fun n => if n = "status" then some "bogus" else none) 7
        ⟨"", "", 200, 60000000000, "", ""⟩ .sighup =
      ([Act.log "Got SIGHUP, reloading.", Act.loadCall], .exit 2) :=
  ⟨((c1_sighup_single_reload_alive_or_exit ["scraper"] extNone 7
      ⟨"", "", 200, 60000000000, "", ""⟩ ⟨"", "", 200, 60000000000, "", ""⟩).1 rfl).1,
   ((c1_sighup_single_reload_alive_or_exit ["scraper"]
      (fun n => if n = "tick" then some "1h" else none) 7
      ⟨"", "", 200, 60000000000, "", ""⟩ ⟨"", "", 200, 3600000000000, "", ""⟩).1 rfl).1,
   (c1_sighup_single_reload_alive_or_exit ["scraper"]
      (fun n => if n = "status" then some "bogus" else none) 7
      ⟨"", "", 200, 60000000000, "", ""⟩ ⟨"", "", 200, 60000000000, "", ""⟩).2 2
      ⟨"", "", 200, 60000000000, "", ""⟩ rfl⟩

/-- C2: a transport-level failure of the GET is returned out of the
control loop at once (no log action on that path), the remaining queued
events are never processed (the runLoop result ignores rest), and at
the process level the error is printed to stderr and the process exits
with code 1 (main lines 118-121). -/
theorem c2_transport_error_fatal :
    ∀ (args : List String) (ext : Lookup) (pid : Int) (c : Config) (e : String)
      (rest : List Ev),
      stepEv args ext pid c (.tick (.error e)) = ([], .ret (some e)) ∧
      runLoop args ext pid c (.tick (.error e) :: rest) = ([], .ret (some e)) ∧
      (∀ c0, configInit zeroConfig args ext = .ok c0 →
        program args ext pid (.tick (.error e) :: rest) =
          ([Act.loadCall, Act.logStarting c0.tick pid, Act.stderr (e ++ "\n")],
            .exited 1)) := by
  intro args ext pid c e rest
  refine ⟨rfl, rfl, fun c0 h => ?_⟩
  simp only [program, h]
  rfl

/-- C2, witness: a concrete transport failure on the first tick after a
default startup. -/
theorem c2_transport_error_fatal_inst :
    program ["scraper"] extNone 7 [.tick (.error "connection refused")] =
      ([Act.loadCall, Act.logStarting 60000000000 7, Act.stderr "connection refused\n"],
        .exited 1) :=
  (c2_transport_error_fatal ["scraper"] extNone 7 zeroConfig "connection refused" []).2.2
    ⟨"", "", 200, 60000000000, "", ""⟩ rfl

/-- C3: each of the four checks logs its mismatch line exactly when its
observed value differs from its expectation, the number of lines is the
number of mismatching checks (so no check short-circuits another), and
on the two concrete examples of the spec the response with status 200,
server nginx, content-type text/html and no user-agent header yields
exactly the status, server and user-agent lines against the
404/apache/text/html/x expectations, and no line against the exactly
matching expectations. -/
theorem c3_four_checks_independent :
    (∀ (c : Config) (r : Resp),
      (statusLine r.statusCode ∈ checkResp c r ↔ r.statusCode ≠ c.statusCode) ∧
      (serverLine (headerGet r.header "server") ∈ checkResp c r ↔
        headerGet r.header "server" ≠ c.server) ∧
      (contentTypeLine (headerGet r.header "content-type") ∈ checkResp c r ↔
        headerGet r.header "content-type" ≠ c.contentType) ∧
      (userAgentLine (headerGet r.header "user-agent") ∈ checkResp c r ↔
        headerGet r.header "user-agent" ≠ c.userAgent) ∧
      (checkResp c r).length =
        ((if r.statusCode ≠ c.statusCode then 1 else 0) +
          ((if headerGet r.header "server" ≠ c.server then 1 else 0) +
            ((if headerGet r.header "content-type" ≠ c.contentType then 1 else 0) +
              (if headerGet r.header "user-agent" ≠ c.userAgent then 1 else 0))))) ∧
    checkResp ⟨"text/html", "apache", 404, 60000000000, "", "x"⟩
        ⟨200, [("Server", "nginx"), ("Content-Type", "text/html")]⟩ =
      [statusLine 200, serverLine "nginx", userAgentLine ""] ∧
    checkResp ⟨"text/html", "nginx", 200, 60000000000, "", ""⟩
        ⟨200, [("Server", "nginx"), ("Content-Type", "text/html")]⟩ = [] := by
  refine ⟨fun c r => ?_, rfl, rfl⟩
  by_cases h1 : r.statusCode = c.statusCode <;>
  by_cases h2 : headerGet r.header "server" = c.server <;>
  by_cases h3 : headerGet r.header "content-type" = c.contentType <;>
  by_cases h4 : headerGet r.header "user-agent" = c.userAgent <;>
  simp [checkResp, h1, h2, h3, h4, statusLine_ne_serverLine, statusLine_ne_ctLine,
    statusLine_ne_uaLine, serverLine_ne_statusLine, serverLine_ne_ctLine,
    serverLine_ne_uaLine, ctLine_ne_statusLine, ctLine_ne_serverLine, ctLine_ne_uaLine,
    uaLine_ne_statusLine, uaLine_ne_serverLine, uaLine_ne_ctLine]

/-- C4: a terminate-class signal, from any loop state (any config) and
with any events still queued, produces the shutdown-start line, the
dying line, a 2 second sleep, the dead line, and a process exit with
code 1, at the step, loop and whole-process levels. -/
theorem c4_terminate_signal_shutdown :
    ∀ (args : List String) (ext : Lookup) (pid : Int) (c : Config) (evs : List Ev),
      stepEv args ext pid c .sigint = (sigTrace, .exit 1) ∧
      stepEv args ext pid c .sigterm = (sigTrace, .exit 1) ∧
      sigTrace = [Act.log "Got SIGINT/SIGTERM, exiting.",
        Act.log "I am dying, please wait...", Act.sleepNs 2000000000,
        Act.log "I am dead."] ∧
      runLoop args ext pid c (.sigint :: evs) = (sigTrace, .exit 1) ∧
      ∀ c0, configInit zeroConfig args ext = .ok c0 →
        program args ext pid (.sigint :: evs) =
          ([Act.loadCall, Act.logStarting c0.tick pid] ++ sigTrace, .exited 1) := by
  intro args ext pid c evs
  refine ⟨rfl, rfl, rfl, rfl, fun c0 h => ?_⟩
  simp only [program, h]
  rfl

/-- C4, witness: SIGINT right after a default startup. -/
theorem c4_terminate_signal_shutdown_inst :
    program ["scraper"] extNone 7 [.sigint] =
      ([Act.loadCall, Act.logStarting 60000000000 7] ++ sigTrace, .exited 1) :=
  (c4_terminate_signal_shutdown ["scraper"] extNone 7 zeroConfig []).2.2.2.2
    ⟨"", "", 200, 60000000000, "", ""⟩ rfl

/-- C5: cancellation of the caller-supplied context makes run return nil
at the next iteration (no forced exit, no log), the whole process then
exits with code 0, while the signal-driven path exits the process with
code 1. -/
theorem c5_cancellation_clean_return :
    ∀ (args : List String) (ext : Lookup) (pid : Int) (c : Config) (evs : List Ev),
      stepEv args ext pid c .ctxDone = ([], .ret none) ∧
      runLoop args ext pid c (.ctxDone :: evs) = ([], .ret none) ∧
      (∀ c0, configInit zeroConfig args ext = .ok c0 →
        program args ext pid (.ctxDone :: evs) =
          ([Act.loadCall, Act.logStarting c0.tick pid], .exited 0)) ∧
      stepEv args ext pid c .sigint = (sigTrace, .exit 1) := by
  intro args ext pid c evs
  refine ⟨rfl, rfl, fun c0 h => ?_, rfl⟩
  simp only [program, h]
  rfl

/-- C5, witness: context cancellation right after a default startup. -/
theorem c5_cancellation_clean_return_inst :
    program ["scraper"] extNone 7 [.ctxDone] =
      ([Act.loadCall, Act.logStarting 60000000000 7], .exited 0) :=
  (c5_cancellation_clean_return ["scraper"] extNone 7 zeroConfig []).2.2.1
    ⟨"", "", 200, 60000000000, "", ""⟩ rfl

/-- C6: whenever the flag parse of the argument list fails, init ends in
the ExitOnError process exit with code 2 and leaves every config field
exactly as it was (the receiver is returned unchanged), and the process
never reaches the startup log or the loop: it exits with code 2 having
only invoked the loader. -/
theorem c6_config_error_no_partial_snapshot :
    ∀ (c : Config) (prog : String) (tail : List String) (ext : Lookup),
      isErr (parseFlags tail ext) = true →
      configInit c (prog :: tail) ext = .exit 2 c ∧
      ∀ (pid : Int) (evs : List Ev),
        program (prog :: tail) ext pid evs = ([Act.loadCall], .exited 2) := by
  intro c prog tail ext h
  cases hp : parseFlags tail ext with
  | ok fv => rw [hp] at h; simp [isErr] at h
  | error e =>
    exact ⟨by simp [configInit, hp], fun pid evs => by simp [program, configInit, hp]⟩

/-- C6, witness: a non-numeric status value at startup. -/
theorem c6_config_error_no_partial_snapshot_inst :
    configInit zeroConfig ["scraper", "-status", "abc"] extNone = .exit 2 zeroConfig ∧
    program ["scraper", "-status", "abc"] extNone 7 [] = ([Act.loadCall], .exited 2) :=
  ⟨(c6_config_error_no_partial_snapshot zeroConfig "scraper" ["-status", "abc"]
      extNone rfl).1,
   (c6_config_error_no_partial_snapshot zeroConfig "scraper" ["-status", "abc"]
      extNone rfl).2 7 []⟩

/-- C7, counterexample: the claim says load fails on a tick duration
that is not strictly positive; in fact init succeeds on tick -5s and on
tick 0s and produces snapshots with non-positive intervals. -/
theorem c7_negative_tick_accepted :
    configInit zeroConfig ["scraper", "-tick", "-5s"] extNone =
      .ok ⟨"", "", 200, -5000000000, "", ""⟩ ∧
    configInit zeroConfig ["scraper", "-tick", "0s"] extNone =
      .ok ⟨"", "", 200, 0, "", ""⟩ ∧
    ¬ ((-5000000000 : Int) > 0) :=
  ⟨rfl, rfl, by decide⟩

/-- C7, amended: the tick option accepts every string time.ParseDuration
accepts, zero and negative durations included; init performs no
positivity validation, so the snapshot carries whatever value parsed
(only unparseable durations fail). -/
theorem c7_tick_parses_any_sign :
    ∀ (c : Config) (s : String) (v : Int),
      goParseDurationL s.data = .ok v →
      configInit c ["scraper", "-tick", s] extNone = .ok ⟨"", "", 200, v, "", ""⟩ := by
  intro c s v h
  simp only [configInit, parseFlags, List.map_cons, List.map_nil]
  rw [parseArgsGo_tick_step, setFlag_tick, h]
  rfl

/-- C7, witness: the amended theorem at the concrete negative duration
-5s. -/
theorem c7_tick_parses_any_sign_inst :
    configInit zeroConfig ["scraper", "-tick", "-5s"] extNone =
      .ok ⟨"", "", 200, -5000000000, "", ""⟩ :=
  c7_tick_parses_any_sign zeroConfig "-5s" (-5000000000) rfl

/-- C8: with no options supplied init returns the documented defaults
(status 200, tick 60s, empty strings for server, content_type,
user_agent and url); for every valid argument list supplying options
(an arbitrary option script: any subset of the six options, in any
order, with repetitions, each occurrence in any of the four flag
spellings, every value parseable) init returns exactly the snapshot the
specification fold assigns, whose fields equal the supplied values with
later occurrences overriding earlier ones; and every option a script
never supplies keeps its field untouched, so omitted options keep the
documented defaults. -/
theorem c8_supplied_values_and_defaults :
    configInit zeroConfig ["scraper"] extNone = .ok defaultConfig ∧
    (∀ (c : Config) (prog : String) (opts : List OptArg) (c' : Config),
      applyOptsSpec defaultConfig opts = .ok c' →
      configInit c (prog :: renderArgs opts) extNone = .ok c') ∧
    (∀ (c0 : Config) (opts : List OptArg) (c' : Config) (n : OptName),
      applyOptsSpec c0 opts = .ok c' → (∀ o ∈ opts, o.name ≠ n) →
      n.get c' = n.get c0) := by
  refine ⟨rfl, fun c prog opts c' h => ?_,
    fun c0 opts => applyOptsSpec_preserves opts c0⟩
  have h' : applyOptsSpec (fvConfig defaultFlagVals) opts = .ok c' := h
  obtain ⟨fv', hp, hc⟩ := parse_refines_applyOpts opts defaultFlagVals c' h'
  simp only [configInit, parseFlags, hp, applyExternal_extNone]
  rw [← hc]
  rfl

/-- C8, witness: a mixed subset in mixed spellings: status spaced, tick
in double-dash equals form, server spaced, url in equals form,
content_type and user_agent omitted; the omitted content_type keeps its
default. -/
theorem c8_supplied_values_and_defaults_inst :
    configInit zeroConfig
        ["scraper", "-status", "404", "--tick=5s", "-server", "nginx", "-url=http://a"]
        extNone =
      .ok ⟨"", "nginx", 404, 5000000000, "http://a", ""⟩ ∧
    OptName.contentType.get ⟨"", "nginx", 404, 5000000000, "http://a", ""⟩ =
      OptName.contentType.get defaultConfig :=
  ⟨c8_supplied_values_and_defaults.2.1 zeroConfig "scraper"
      [⟨.status, "404", false, false⟩, ⟨.tick, "5s", true, true⟩,
        ⟨.server, "nginx", false, false⟩, ⟨.url, "http://a", true, false⟩]
      ⟨"", "nginx", 404, 5000000000, "http://a", ""⟩ rfl,
   c8_supplied_values_and_defaults.2.2 defaultConfig
      [⟨.status, "404", false, false⟩, ⟨.tick, "5s", true, true⟩,
        ⟨.server, "nginx", false, false⟩, ⟨.url, "http://a", true, false⟩]
      ⟨"", "nginx", 404, 5000000000, "http://a", ""⟩ .contentType rfl (by decide)⟩

/-- C9: the user-agent comparison reads its observed value from the
response headers (the Resp structure carries only response data), and
the mismatch line appears exactly when that response header value
differs from the expectation; concretely, a response whose own
user-agent header equals the expectation yields no line, and a response
without the header yields the line with the observed empty value. -/
theorem c9_user_agent_from_response :
    (∀ (c : Config) (r : Resp),
      userAgentLine (headerGet r.header "user-agent") ∈ checkResp c r ↔
        headerGet r.header "user-agent" ≠ c.userAgent) ∧
    checkResp ⟨"", "", 200, 60000000000, "", "curl/8"⟩
        ⟨200, [("User-Agent", "curl/8")]⟩ = [] ∧
    checkResp ⟨"", "", 200, 60000000000, "", "curl/8"⟩ ⟨200, []⟩ =
      [userAgentLine ""] := by
  refine ⟨fun c r => ?_, rfl, rfl⟩
  by_cases h1 : r.statusCode = c.statusCode <;>
  by_cases h2 : headerGet r.header "server" = c.server <;>
  by_cases h3 : headerGet r.header "content-type" = c.contentType <;>
  by_cases h4 : headerGet r.header "user-agent" = c.userAgent <;>
  simp [checkResp, h1, h2, h3, h4, uaLine_ne_statusLine, uaLine_ne_serverLine,
    uaLine_ne_ctLine]

/-- C10: every successfully probed tick logs the pid line first,
unconditionally, before the four comparisons; the trace has exactly one
more line than there are mismatches, and a tick with zero mismatches
still produces exactly the one pid line. -/
theorem c10_pid_line_every_successful_tick :
    (∀ (args : List String) (ext : Lookup) (pid : Int) (c : Config) (r : Resp),
      stepEv args ext pid c (.tick (.ok r)) =
        (Act.log (pidLine pid) :: (checkResp c r).map Act.log, .more c)) ∧
    (∀ (args : List String) (ext : Lookup) (pid : Int) (c : Config) (r : Resp),
      ((stepEv args ext pid c (.tick (.ok r))).fst).length =
        1 + (checkResp c r).length) ∧
    pidLine 4242 = "4242: " ∧
    stepEv ["scraper"] extNone 4242 ⟨"text/html", "nginx", 200, 60000000000, "", ""⟩
        (.tick (.ok ⟨200, [("Server", "nginx"), ("Content-Type", "text/html")]⟩)) =
      ([Act.log "4242: "], .more ⟨"text/html", "nginx", 200, 60000000000, "", ""⟩) := by
  refine ⟨fun args ext pid c r => rfl, fun args ext pid c r => ?_, rfl, rfl⟩
  simp [stepEv, Nat.add_comm]

end Scraper
